import Mathlib

/-!
Verification development for the smartasync / smartsync dispatch core.

The Python source (src/smartasync/core.py and src/smartsync/core.py) is
shallowly embedded here.  A wrapped unit is described by its wrap-time
classification (the boolean result of asyncio.iscoroutinefunction),
its name, and its behaviour: a function from arguments to either a
value or a raised Python exception.  The mutable per-unit cache
( the closed-over variable cached_has_loop ) is threaded explicitly as a
boolean state; the per-call environment records whether the calling
thread has a running event loop at the moment of the probe
(asyncio.get_running_loop) and at the moment asyncio.run is entered,
which may differ under the race discussed in the spec.
-/

namespace Smartasync

/-- Python exception as observed by the dispatch layer: whether it is a
RuntimeError (the only class the except clause in the source catches and
tests), its message, and an optional chained cause message set by
`raise ... from e`. -/
structure PyError where
  isRuntimeError : Bool
  msg : String
  cause : Option String
deriving DecidableEq, Repr

/-- Per-call environment: whether asyncio.get_running_loop() would succeed
at the probe inside the wrapper, and whether a loop is running on the
thread at the moment asyncio.run is entered (the two can differ only under
the race the spec describes in section 4.3). -/
structure CallEnv where
  loopAtProbe : Bool
  loopAtRun : Bool
deriving DecidableEq, Repr

instance exceptDecidableEq {ε α : Type} [DecidableEq ε] [DecidableEq α] :
    DecidableEq (Except ε α) := fun a b =>
  match a, b with
  | .ok x, .ok y =>
    if h : x = y then .isTrue (by rw [h]) else .isFalse (by simp [h])
  | .ok _, .error _ => .isFalse (by simp)
  | .error _, .ok _ => .isFalse (by simp)
  | .error x, .error y =>
    if h : x = y then .isTrue (by rw [h]) else .isFalse (by simp [h])

/-- Handle returned to a scheduled caller: either the coroutine object
itself (async context, async method) or the asyncio.to_thread awaitable
that offloads a sync method to a worker thread (async context, sync
method).  Either resolves, when awaited, to the unit value or re-raises
its failure. -/
inductive Handle (α : Type) where
  | coroutine (result : Except PyError α)
  | offload (result : Except PyError α)
deriving DecidableEq, Repr

/-- Awaiting a handle yields the unit result: the coroutine runs the body,
and asyncio.to_thread re-raises the callable failure unchanged on the
awaiting side. -/
def Handle.resolve {α : Type} : Handle α → Except PyError α
  | .coroutine r => r
  | .offload r => r

/-- Outcome of one call of the wrapped unit as seen by the caller: an
ordinary returned value, a raised exception, or a returned awaitable
handle. -/
inductive CallResult (α : Type) where
  | value (v : α)
  | raised (e : PyError)
  | handle (h : Handle α)
deriving DecidableEq, Repr

/-- Boolean test that the character list sub occurs as a prefix of the
character list s (helper for the substring test the source performs with
the Python in operator). -/
def listPrefixEq : List Char → List Char → Bool
  | [], _ => true
  | _ :: _, [] => false
  | a :: as, b :: bs => a == b && listPrefixEq as bs

/-- Boolean test that sub occurs contiguously somewhere inside s,
mirroring the Python expression sub in s on strings. -/
def listContains (sub : List Char) : List Char → Bool
  | [] => listPrefixEq sub []
  | b :: bs => listPrefixEq sub (b :: bs) || listContains sub bs

/-- Substring test on strings, mirroring the Python membership test
used at line 70 of src/smartasync/core.py. -/
def strContains (s sub : String) : Bool :=
  listContains sub.toList s.toList

/-- Message of the RuntimeError asyncio.run raises when invoked on a
thread that already has a running event loop. -/
def asyncioRunConflictMsg : String :=
  "asyncio.run() cannot be called from a running event loop"

/-- RuntimeError asyncio.run raises when invoked on a thread that
already has a running event loop. -/
def asyncioRunConflictError : PyError :=
  { isRuntimeError := true, msg := asyncioRunConflictMsg, cause := none }

/-- Substring the except clause at line 70 of src/smartasync/core.py
looks for in the caught RuntimeError message. -/
def loopConflictNeedle : String :=
  "cannot be called from a running event loop"

/-- Apostrophe character, used in the instructive message text. -/
def apos : String := String.singleton (Char.ofNat 39)

/-- Message of the instructive RuntimeError raised at lines 71 to 74 of
src/smartasync/core.py, parameterised by the wrapped method name. -/
def instructiveMsg (name : String) : String :=
  "Cannot call " ++ name ++ "() synchronously from within an async context. Use "
    ++ apos ++ "await " ++ name ++ "()" ++ apos ++ " instead."

/-- Instructive RuntimeError (the ContextConflict of the spec), chaining
the original exception message as its cause, as raise ... from e does. -/
def instructiveError (name : String) (origMsg : String) : PyError :=
  { isRuntimeError := true, msg := instructiveMsg name, cause := some origMsg }

/-- Predicate of the except clause: the escaping exception is a
RuntimeError whose message contains the loop-conflict substring. -/
def conversionApplies (e : PyError) : Bool :=
  e.isRuntimeError && strContains e.msg loopConflictNeedle

/-- Embedding of asyncio.run applied to a coroutine whose execution, if
driven to completion, yields body: if a loop is already running on the
calling thread, asyncio.run raises its conflict RuntimeError without
running the coroutine; otherwise it drives the coroutine to completion
and returns its value or lets its failure escape. -/
def asyncioRun {α : Type} (loopRunning : Bool) (body : Except PyError α) :
    Except PyError α :=
  if loopRunning then .error asyncioRunConflictError else body

/-- Context-detection step of the wrapper (lines 44 to 58 of
src/smartasync/core.py).  Input: the cached flag and whether
asyncio.get_running_loop() succeeds right now.  Output: the detected
async-context boolean, the new cache value, and whether the probe
(asyncio.get_running_loop) was actually invoked. -/
def probeStep (cached : Bool) (loopAtProbe : Bool) : Bool × Bool × Bool :=
  if cached then (true, cached, false)
  else if loopAtProbe then (true, true, true)
  else (false, cached, true)

/-- Context a call effectively dispatches with, given the cache state and
the probe-time environment. -/
def effectiveContext (cached : Bool) (env : CallEnv) : Bool :=
  (probeStep cached env.loopAtProbe).1

/-- Lift the result of a plain synchronous invocation to a CallResult:
a value is returned, a failure propagates as raised. -/
def directOutcome {α : Type} : Except PyError α → CallResult α
  | .ok v => .value v
  | .error e => .raised e

/-- Sync-bridge branch of the wrapper (lines 64 to 75 of
src/smartasync/core.py): run the coroutine with asyncio.run; if a
RuntimeError whose message contains the loop-conflict substring escapes,
replace it with the instructive error chained on the original; any other
outcome passes through. -/
def syncBridgeOutcome {α : Type} (name : String) (loopAtRun : Bool)
    (body : Except PyError α) : CallResult α :=
  match asyncioRun loopAtRun body with
  | .ok v => .value v
  | .error e =>
    if conversionApplies e then
      .raised (instructiveError name e.msg)
    else
      .raised e

/-- One call of the wrapper produced by smartasync (the inner function
at lines 42 to 87 of src/smartasync/core.py).  Arguments: the wrap-time
is-coroutine flag, the method name, the unit behaviour on this
argument list, the current cache state and the call environment.
Returns the caller-visible result, the new cache state and whether the
probe was invoked. -/
def wrapperCall {α : Type} (isCoro : Bool) (name : String)
    (body : Except PyError α) (cached : Bool) (env : CallEnv) :
    CallResult α × Bool × Bool :=
  let ctx := probeStep cached env.loopAtProbe
  let asyncContext := ctx.1
  let cached2 := ctx.2.1
  let probed := ctx.2.2
  match asyncContext, isCoro with
  | false, true => (syncBridgeOutcome name env.loopAtRun body, cached2, probed)
  | false, false => (directOutcome body, cached2, probed)
  | true, true => (.handle (.coroutine body), cached2, probed)
  | true, false => (.handle (.offload body), cached2, probed)

/-- Cache transition of one call: new cache value and whether the probe
ran, extracted from wrapperCall (the value result is irrelevant). -/
def callStep (cached : Bool) (env : CallEnv) : Bool × Bool :=
  (wrapperCall true "u" (Except.ok (0 : Int)) cached env).2

/-- Embedding of reset_cache (lines 90 to 94 of src/smartasync/core.py):
sets the closed-over cached flag back to false. -/
def reset_cache (_cached : Bool) : Bool := false

/-- Probe flags of a sequence of calls starting from a cache state:
for each call environment in order, whether that call invoked the
probe, threading the cache state through. -/
def traceProbes : Bool → List CallEnv → List Bool
  | _, [] => []
  | cached, e :: es =>
    let s := callStep cached e
    s.2 :: traceProbes s.1 es

end Smartasync

namespace Smartsync

open Smartasync (PyError CallEnv CallResult Handle directOutcome asyncioRun
  conversionApplies instructiveError probeStep)

/-- Result of applying the smartsync decorator (lines 113 to 157 of
src/smartsync/core.py): a coroutine function is wrapped (with its own
closed-over cache, initialised to false), while a plain synchronous
callable is returned unchanged. -/
inductive Decorated (α β : Type) where
  | wrapped (method : α → Except PyError β)
  | plain (method : α → Except PyError β)

/-- Embedding of the smartsync decorator dispatch at lines 113 to 157 of
src/smartsync/core.py: wrap when asyncio.iscoroutinefunction(method)
holds, otherwise return the method itself. -/
def smartsync {α β : Type} (isCoro : Bool) (method : α → Except PyError β) :
    Decorated α β :=
  if isCoro then .wrapped method else .plain method

/-- Calling a plain (undecorated) Python callable: an ordinary direct
invocation on the calling thread, in every context; no cache is read or
written and no probe runs.  Returns the caller-visible result, the
(unchanged, nonexistent) cache represented by the input flag, and false
for probe-invoked. -/
def plainCall {α β : Type} (method : α → Except PyError β) (args : α)
    (cached : Bool) (_env : CallEnv) : CallResult β × Bool × Bool :=
  (directOutcome (method args), cached, false)

/-- Calling the wrapper smartsync builds around a coroutine function
(lines 118 to 145 of src/smartsync/core.py): the coroutine is created
first, then the cache and probe decide between returning it and running
it with asyncio.run under the same RuntimeError conversion as
smartasync. -/
def wrappedCall {α β : Type} (name : String) (method : α → Except PyError β)
    (args : α) (cached : Bool) (env : CallEnv) : CallResult β × Bool × Bool :=
  let body := method args
  let ctx := probeStep cached env.loopAtProbe
  if ctx.1 then
    (.handle (.coroutine body), ctx.2.1, ctx.2.2)
  else
    (Smartasync.syncBridgeOutcome name env.loopAtRun body, ctx.2.1, ctx.2.2)

end Smartsync

namespace Smartasync

/-- Helper: the cache and probe components of a call depend only on the
probe step, never on the unit kind, name or behaviour. -/
theorem wrapperCall_state_eq {α : Type} (isCoro : Bool) (name : String)
    (body : Except PyError α) (cached : Bool) (env : CallEnv) :
    (wrapperCall isCoro name body cached env).2 =
      (probeStep cached env.loopAtProbe).2 := by
  rcases env with ⟨p, q⟩
  cases cached <;> cases p <;> cases isCoro <;>
    simp [wrapperCall, probeStep]

/-- Claim C1: for every call, the wrapper combines the effective context
with the wrap-time kind and selects exactly one of the four strategies:
unscheduled suspendable runs the unit to completion on the calling
thread and returns its final value; unscheduled blocking invokes it
synchronously and returns its value; scheduled suspendable returns a
suspendable handle without waiting; scheduled blocking returns a
worker-thread offload handle. -/
theorem dispatch_matrix {α : Type} (isCoro cached : Bool) (env : CallEnv)
    (name : String) (v : α) :
    (effectiveContext cached env = false → isCoro = true →
      env.loopAtRun = false →
      (wrapperCall isCoro name (Except.ok v) cached env).1 =
        CallResult.value v) ∧
    (effectiveContext cached env = false → isCoro = false →
      (wrapperCall isCoro name (Except.ok v) cached env).1 =
        CallResult.value v) ∧
    (effectiveContext cached env = true → isCoro = true →
      (wrapperCall isCoro name (Except.ok v) cached env).1 =
        CallResult.handle (Handle.coroutine (Except.ok v))) ∧
    (effectiveContext cached env = true → isCoro = false →
      (wrapperCall isCoro name (Except.ok v) cached env).1 =
        CallResult.handle (Handle.offload (Except.ok v))) := by
  rcases env with ⟨p, q⟩
  cases cached <;> cases p <;> cases q <;> cases isCoro <;>
    simp [wrapperCall, effectiveContext, probeStep, syncBridgeOutcome,
      asyncioRun, directOutcome]

/-- Witness for C1 at a concrete input: a suspendable unit called with
an empty cache on a thread with no loop returns its final value. -/
theorem dispatch_matrix_witness :
    (wrapperCall true "u" (Except.ok (5 : Int)) false ⟨false, false⟩).1 =
      CallResult.value 5 :=
  (dispatch_matrix true false ⟨false, false⟩ "u" (5 : Int)).1 rfl rfl rfl

/-- Claim C2: if the cache reads true the context is treated as scheduled
without invoking the probe; otherwise the probe is invoked, a scheduled
report marks the cache true before the dispatch decision, and an
unscheduled report leaves the cache unwritten so every unscheduled call
re-probes. -/
theorem cache_probe_policy {α : Type} (isCoro cached : Bool) (name : String)
    (body : Except PyError α) (env : CallEnv) :
    (cached = true → effectiveContext cached env = true ∧
      (wrapperCall isCoro name body cached env).2.2 = false ∧
      (wrapperCall isCoro name body cached env).2.1 = true) ∧
    (cached = false → (wrapperCall isCoro name body cached env).2.2 = true ∧
      (env.loopAtProbe = true → effectiveContext cached env = true ∧
        (wrapperCall isCoro name body cached env).2.1 = true) ∧
      (env.loopAtProbe = false → effectiveContext cached env = false ∧
        (wrapperCall isCoro name body cached env).2.1 = false)) := by
  rcases env with ⟨p, q⟩
  cases cached <;> cases p <;> cases isCoro <;>
    simp [wrapperCall, effectiveContext, probeStep]

/-- Witness for C2 at a concrete input: with an empty cache and a running
loop at the probe, the probe is invoked and the cache is marked true. -/
theorem cache_probe_policy_witness :
    (wrapperCall true "u" (Except.ok (1 : Int)) false ⟨true, true⟩).2.2 = true ∧
    (wrapperCall true "u" (Except.ok (1 : Int)) false ⟨true, true⟩).2.1 = true :=
  ⟨((cache_probe_policy true false "u" (Except.ok (1 : Int)) ⟨true, true⟩).2
      rfl).1,
   (((cache_probe_policy true false "u" (Except.ok (1 : Int)) ⟨true, true⟩).2
      rfl).2.1 rfl).2⟩

/-- Claim C3: the cache flag is a one-way latch: no dispatch sets it from
true back to false, only reset clears it; once it reads true every
subsequent call skips the probe, and after reset the next call probes
again. -/
theorem cache_one_way_latch {α : Type} (isCoro cached : Bool) (name : String)
    (body : Except PyError α) (env : CallEnv) (envs : List CallEnv) :
    ((wrapperCall isCoro name body cached env).2.1 = false → cached = false) ∧
    (cached = true →
      (wrapperCall isCoro name body cached env).2 = (true, false)) ∧
    traceProbes true envs = envs.map (fun _ => false) ∧
    reset_cache cached = false ∧
    (wrapperCall isCoro name body (reset_cache cached) env).2.2 = true := by
  refine ⟨?_, ?_, ?_, rfl, ?_⟩
  · rcases env with ⟨p, q⟩
    cases cached <;> cases p <;> cases isCoro <;>
      simp [wrapperCall, probeStep]
  · intro h
    subst h
    rcases env with ⟨p, q⟩
    cases isCoro <;> simp [wrapperCall, probeStep]
  · induction envs with
    | nil => rfl
    | cons e es ih =>
      have h1 : (callStep true e).2 = false := by
        simp [callStep, wrapperCall, probeStep]
      have h2 : (callStep true e).1 = true := by
        simp [callStep, wrapperCall, probeStep]
      simp only [traceProbes, List.map, h1, h2, ih]
  · rcases env with ⟨p, q⟩
    cases p <;> cases isCoro <;>
      simp [wrapperCall, probeStep, reset_cache]

/-- Claim C4 as stated is refuted at a concrete input: a suspendable
unit whose own failure is a RuntimeError containing the loop-conflict
substring, called from unscheduled context with no active scheduler,
does not have that failure propagated unchanged; the wrapper replaces
it with the instructive error. -/
theorem syncBridge_failure_conversion_cex :
    (wrapperCall true "task"
        (Except.error
          { isRuntimeError := true,
            msg := "task body: asyncio.run() cannot be called from a running event loop",
            cause := none } : Except PyError Int)
        false ⟨false, false⟩).1 =
      CallResult.raised
        (instructiveError "task"
          "task body: asyncio.run() cannot be called from a running event loop") := by
  decide

/-- Claim C4, amended: for a suspendable unit called from unscheduled
context on a thread with no active scheduler, the call returns exactly
the value the unit produces, and a failing unit has its own failure
propagated unchanged provided the failure is not a RuntimeError whose
message contains the loop-conflict substring (such failures are
replaced by the instructive error, see C9). -/
theorem syncBridge_value_and_failure {α : Type} (name : String) (v : α)
    (e : PyError) (cached : Bool) (env : CallEnv)
    (hc : cached = false) (hp : env.loopAtProbe = false)
    (hr : env.loopAtRun = false) :
    (wrapperCall true name (Except.ok v) cached env).1 = CallResult.value v ∧
    (conversionApplies e = false →
      (wrapperCall true name (Except.error e : Except PyError α) cached
        env).1 = CallResult.raised e) := by
  subst hc
  rcases env with ⟨p, q⟩
  simp only at hp hr
  subst hp; subst hr
  constructor
  · simp [wrapperCall, probeStep, syncBridgeOutcome, asyncioRun]
  · intro hconv
    simp [wrapperCall, probeStep, syncBridgeOutcome, asyncioRun, hconv]

/-- Witness for C4 at a concrete input: a unit failing with a plain
ValueError-style failure has it propagated unchanged. -/
theorem syncBridge_value_and_failure_witness :
    (wrapperCall true "job" (Except.ok (7 : Int)) false ⟨false, false⟩).1 =
      CallResult.value 7 ∧
    (wrapperCall true "job"
        (Except.error
          { isRuntimeError := false, msg := "bad input", cause := none } :
          Except PyError Int)
        false ⟨false, false⟩).1 =
      CallResult.raised
        { isRuntimeError := false, msg := "bad input", cause := none } :=
  ⟨(syncBridge_value_and_failure "job" (7 : Int)
      { isRuntimeError := false, msg := "bad input", cause := none }
      false ⟨false, false⟩ rfl rfl rfl).1,
   (syncBridge_value_and_failure "job" (7 : Int)
      { isRuntimeError := false, msg := "bad input", cause := none }
      false ⟨false, false⟩ rfl rfl rfl).2 (by decide)⟩

/-- Claim C5 as stated is refuted at a concrete input: the instructive
ContextConflict error is raised in a run in which creating the private
scheduler succeeded (no loop was running when asyncio.run was entered),
because the unit body itself raised a RuntimeError whose message
contains the loop-conflict substring; so the conversion is not
conditioned on scheduler creation failing. -/
theorem contextConflict_iff_cex :
    (wrapperCall true "connect"
        (Except.error
          { isRuntimeError := true,
            msg := "nested client cannot be called from a running event loop",
            cause := none } : Except PyError Int)
        false ⟨false, false⟩).1 =
      CallResult.raised
        (instructiveError "connect"
          "nested client cannot be called from a running event loop") := by
  decide

/-- Helper: a raised outcome of a direct synchronous invocation is
exactly the unit own failure. -/
theorem directOutcome_raised {α : Type} (body : Except PyError α)
    (f : PyError) (h : directOutcome body = CallResult.raised f) :
    body = Except.error f := by
  cases body with
  | ok v => simp [directOutcome] at h
  | error e => simp only [directOutcome, CallResult.raised.injEq] at h; rw [h]

/-- Helper: a raised outcome of the sync-bridge branch is either the
unit own failure or the instructive error produced by the conversion of
a matching escaping RuntimeError. -/
theorem syncBridgeOutcome_raised {α : Type} (name : String) (q : Bool)
    (body : Except PyError α) (f : PyError)
    (h : syncBridgeOutcome name q body = CallResult.raised f) :
    body = Except.error f ∨
      ∃ e, conversionApplies e = true ∧ f = instructiveError name e.msg := by
  cases q with
  | true =>
    right
    refine ⟨asyncioRunConflictError, by decide, ?_⟩
    have happ : conversionApplies asyncioRunConflictError = true := by decide
    have h2 : syncBridgeOutcome name true body =
        CallResult.raised (instructiveError name asyncioRunConflictMsg) := by
      simp only [syncBridgeOutcome, asyncioRun, if_true, happ,
        CallResult.raised.injEq]
      rfl
    rw [h2] at h
    injection h with h3
    exact h3.symm
  | false =>
    cases body with
    | ok v => simp [syncBridgeOutcome, asyncioRun] at h
    | error e =>
      cases hc : conversionApplies e with
      | true =>
        right
        refine ⟨e, hc, ?_⟩
        simp only [syncBridgeOutcome, asyncioRun, if_false,
          Bool.false_eq_true, reduceIte, hc, if_true,
          CallResult.raised.injEq] at h
        exact h.symm
      | false =>
        left
        simp only [syncBridgeOutcome, asyncioRun, if_false,
          Bool.false_eq_true, reduceIte, hc,
          CallResult.raised.injEq] at h
        rw [h]

/-- Claim C5, amended: when scheduler creation fails because a loop is
already running on the calling thread, the wrapper raises the
instructive ContextConflict error carrying the unit name; however the
conversion is keyed on the escaping exception being a RuntimeError whose
message contains the loop-conflict substring, so a matching failure
raised by the unit body is converted as well; apart from this
conversion, every error the wrapper raises is the unit own failure
propagated unchanged. -/
theorem contextConflict_conditions {α : Type} (isCoro cached : Bool)
    (name : String) (body : Except PyError α) (env : CallEnv) :
    (cached = false → env.loopAtProbe = false → env.loopAtRun = true →
      isCoro = true →
      (wrapperCall isCoro name body cached env).1 =
        CallResult.raised (instructiveError name asyncioRunConflictMsg)) ∧
    (∀ f, (wrapperCall isCoro name body cached env).1 = CallResult.raised f →
      body = Except.error f ∨
      ∃ e, conversionApplies e = true ∧ f = instructiveError name e.msg) := by
  constructor
  · intro hc hp hr hk
    subst hc; subst hk
    rcases env with ⟨p, q⟩
    simp only at hp hr
    subst hp; subst hr
    have happ : conversionApplies asyncioRunConflictError = true := by decide
    simp only [wrapperCall, probeStep, syncBridgeOutcome, asyncioRun,
      if_true, if_false, Bool.false_eq_true, reduceIte, happ,
      CallResult.raised.injEq]
    rfl
  · intro f hf
    rcases env with ⟨p, q⟩
    cases cached <;> cases p <;> cases isCoro <;>
      simp only [wrapperCall, probeStep, if_true, if_false,
        Bool.false_eq_true, reduceIte] at hf
    case false.false.false =>
      exact Or.inl (directOutcome_raised body f hf)
    case false.false.true =>
      exact syncBridgeOutcome_raised name q body f hf
    all_goals exact absurd hf (by simp)

/-- Witness for C5 at a concrete input: with a loop running when
asyncio.run is entered, the wrapper raises the instructive error built
from the asyncio.run conflict message. -/
theorem contextConflict_conditions_witness :
    (wrapperCall true "job2" (Except.ok (1 : Int)) false ⟨false, true⟩).1 =
      CallResult.raised (instructiveError "job2" asyncioRunConflictMsg) :=
  (contextConflict_conditions true false "job2" (Except.ok (1 : Int))
    ⟨false, true⟩).1 rfl rfl rfl rfl

/-- Witness for C3 at a concrete input: with the cache latched, two
further calls both skip the probe, and a call after reset probes. -/
theorem cache_one_way_latch_witness :
    traceProbes true [⟨false, false⟩, ⟨true, false⟩] = [false, false] ∧
    (wrapperCall true "u" (Except.ok (0 : Int)) (reset_cache true)
      ⟨false, false⟩).2.2 = true :=
  ⟨(cache_one_way_latch true true "u" (Except.ok (0 : Int)) ⟨false, false⟩
      [⟨false, false⟩, ⟨true, false⟩]).2.2.1,
   (cache_one_way_latch true true "u" (Except.ok (0 : Int)) ⟨false, false⟩
      []).2.2.2.2⟩

/-- Claim C6: a blocking unit called from unscheduled context returns
exactly the result of invoking the underlying callable directly with the
same arguments, with no threading involved. -/
theorem blocking_unscheduled_direct {α β : Type}
    (method : α → Except PyError β) (args : α) (name : String)
    (cached : Bool) (env : CallEnv)
    (hc : cached = false) (hp : env.loopAtProbe = false) :
    (wrapperCall false name (method args) cached env).1 =
      directOutcome (method args) := by
  subst hc
  rcases env with ⟨p, q⟩
  simp only at hp
  subst hp
  simp [wrapperCall, probeStep]

/-- Addition unit of the concrete scenario of C6. -/
def add (p : Int × Int) : Except PyError Int := Except.ok (p.1 + p.2)

/-- Witness for C6 at the concrete scenario: the wrapped add called with
the pair (2, 3) from unscheduled context returns 5 directly. -/
theorem blocking_unscheduled_direct_witness :
    (wrapperCall false "add" (add (2, 3)) false ⟨false, false⟩).1 =
      CallResult.value 5 := by
  have h := blocking_unscheduled_direct add (2, 3) "add" false ⟨false, false⟩
    rfl rfl
  simpa [add, directOutcome] using h

/-- Claim C7: a blocking unit called from scheduled context returns an
offload handle, and resolving that handle yields the unit return value
or re-raises the unit original failure unchanged, preserving its
identity and content. -/
theorem blocking_scheduled_offload {α : Type} (name : String)
    (body : Except PyError α) (cached : Bool) (env : CallEnv)
    (h : effectiveContext cached env = true) :
    (wrapperCall false name body cached env).1 =
      CallResult.handle (Handle.offload body) ∧
    Handle.resolve (Handle.offload body) = body := by
  refine ⟨?_, rfl⟩
  rcases env with ⟨p, q⟩
  cases cached <;> cases p <;>
    simp_all [wrapperCall, effectiveContext, probeStep]

/-- Witness for C7 at the concrete scenario: a failing blocking unit
invoked from scheduled context yields a handle that resolves to the
original failure, not a wrapped or renamed one. -/
theorem blocking_scheduled_offload_witness :
    (wrapperCall false "work"
        (Except.error { isRuntimeError := false, msg := "disk full", cause := none } : Except PyError Int)
        false ⟨true, true⟩).1 =
      CallResult.handle (Handle.offload (Except.error
        { isRuntimeError := false, msg := "disk full", cause := none })) ∧
    Handle.resolve (Handle.offload (Except.error
        { isRuntimeError := false, msg := "disk full", cause := none } : Except PyError Int)) =
      Except.error { isRuntimeError := false, msg := "disk full", cause := none } :=
  blocking_scheduled_offload "work"
    (Except.error { isRuntimeError := false, msg := "disk full", cause := none } : Except PyError Int)
    false ⟨true, true⟩ (by decide)

/-- Claim C8: if the cache flag of a suspendable unit has been set and
the unit is then called from unscheduled context on a thread with no
active scheduler, the call returns a suspension handle rather than
running the unit to completion. -/
theorem stale_cache_returns_handle {α : Type} (name : String)
    (body : Except PyError α) (cached : Bool) (env : CallEnv)
    (hc : cached = true) :
    (wrapperCall true name body cached env).1 =
      CallResult.handle (Handle.coroutine body) ∧
    ∀ v : α, (wrapperCall true name body cached env).1 ≠
      CallResult.value v := by
  subst hc
  constructor
  · rcases env with ⟨p, q⟩
    simp [wrapperCall, probeStep]
  · intro v h
    rcases env with ⟨p, q⟩
    simp [wrapperCall, probeStep] at h

/-- Witness for C8 at a concrete input: with the cache latched, a call
on a thread with no running loop still returns the coroutine handle. -/
theorem stale_cache_returns_handle_witness :
    (wrapperCall true "shared" (Except.ok (9 : Int)) true ⟨false, false⟩).1 =
      CallResult.handle (Handle.coroutine (Except.ok 9)) :=
  (stale_cache_returns_handle "shared" (Except.ok (9 : Int)) true
    ⟨false, false⟩ rfl).1

/-- Claim C9: in the sync-bridge path, the conversion to the instructive
error is decided solely by the predicate on the escaping exception
(RuntimeError whose message contains the loop-conflict substring),
regardless of the exception origin: a matching failure raised by the
unit own body is replaced by the instructive error chaining the original
message as its cause, while every non-matching exception propagates
unchanged. -/
theorem conversion_predicate_sole_criterion {α : Type} (name : String)
    (e : PyError) (cached : Bool) (env : CallEnv)
    (hc : cached = false) (hp : env.loopAtProbe = false)
    (hr : env.loopAtRun = false) :
    conversionApplies e =
      (e.isRuntimeError && strContains e.msg loopConflictNeedle) ∧
    (conversionApplies e = true →
      (wrapperCall true name (Except.error e : Except PyError α) cached
        env).1 = CallResult.raised (instructiveError name e.msg)) ∧
    (conversionApplies e = false →
      (wrapperCall true name (Except.error e : Except PyError α) cached
        env).1 = CallResult.raised e) ∧
    (instructiveError name e.msg).cause = some e.msg := by
  subst hc
  rcases env with ⟨p, q⟩
  simp only at hp hr
  subst hp; subst hr
  refine ⟨rfl, ?_, ?_, rfl⟩
  · intro h
    simp [wrapperCall, probeStep, syncBridgeOutcome, asyncioRun, h]
  · intro h
    simp [wrapperCall, probeStep, syncBridgeOutcome, asyncioRun, h]

/-- Witness for C9 at a concrete input: a unit body failure that is a
RuntimeError containing the loop-conflict substring is replaced by the
instructive error. -/
theorem conversion_predicate_sole_criterion_witness :
    (wrapperCall true "fetch"
        (Except.error { isRuntimeError := true, msg := "inner call cannot be called from a running event loop", cause := none } : Except PyError Int)
        false ⟨false, false⟩).1 =
      CallResult.raised (instructiveError "fetch"
        "inner call cannot be called from a running event loop") :=
  (conversion_predicate_sole_criterion "fetch"
    { isRuntimeError := true, msg := "inner call cannot be called from a running event loop", cause := none }
    false ⟨false, false⟩ rfl rfl rfl).2.1 (by decide)

end Smartasync

namespace Smartsync

open Smartasync (PyError CallEnv CallResult Handle directOutcome
  effectiveContext wrapperCall probeStep)

/-- Claim C10: the smartsync decorator is the identity on a blocking
(non-coroutine) callable: it returns the original callable unchanged, so
every call to it, including from scheduled context, executes directly on
the calling thread with no dispatch, no cache and no thread offload;
whereas the smartasync wrapper offloads a blocking unit to a thread when
the context is scheduled. -/
theorem smartsync_identity_on_blocking {α β : Type}
    (method : α → Except PyError β) (args : α) (cached : Bool)
    (env : CallEnv) (name : String) :
    smartsync false method = Decorated.plain method ∧
    plainCall method args cached env =
      (directOutcome (method args), cached, false) ∧
    (∀ hdl : Handle β,
      (plainCall method args cached env).1 ≠ CallResult.handle hdl) ∧
    (effectiveContext cached env = true →
      (wrapperCall false name (method args) cached env).1 =
        CallResult.handle (Handle.offload (method args))) := by
  refine ⟨by simp [smartsync], rfl, ?_, ?_⟩
  · intro hdl h
    cases hm : method args <;>
      simp [plainCall, directOutcome, hm] at h
  · intro h
    rcases env with ⟨p, q⟩
    cases cached <;> cases p <;>
      simp_all [wrapperCall, effectiveContext, probeStep]

/-- Witness for C10 at a concrete input: a doubling blocking unit is
returned unchanged by smartsync and executes directly even in scheduled
context, while the smartasync wrapper returns an offload handle there. -/
theorem smartsync_identity_on_blocking_witness :
    smartsync false (fun n : Int => Except.ok (n * 2)) =
      Decorated.plain (fun n : Int => Except.ok (n * 2)) ∧
    (plainCall (fun n : Int => Except.ok (n * 2)) 4 false ⟨true, false⟩).1 =
      CallResult.value 8 ∧
    (wrapperCall false "dbl" ((fun n : Int => Except.ok (n * 2)) 4) false
      ⟨true, false⟩).1 = CallResult.handle (Handle.offload (Except.ok 8)) :=
  ⟨(smartsync_identity_on_blocking (fun n : Int => Except.ok (n * 2)) 4
      false ⟨true, false⟩ "dbl").1,
   by
    have h := (smartsync_identity_on_blocking
      (fun n : Int => Except.ok (n * 2)) 4 false ⟨true, false⟩ "dbl").2.1
    simp only [h]
    rfl,
   by
    have h := (smartsync_identity_on_blocking
      (fun n : Int => Except.ok (n * 2)) 4 false ⟨true, false⟩ "dbl").2.2.2
      (by decide)
    simpa using h⟩

end Smartsync
